import Mathlib

/-!
Verification of the `PngImage` wrapper declared in `src/native/png-image.hpp`
of the node-libpng repository.

The header declares a class owning two libpng pointers (`pngPtr : png_structp`,
`infoPtr : png_infop`) together with eleven read-only getters, a private
constructor/destructor pair, and a static `New`/`Init` registration interface.
The companion implementation file is not part of the sources, so the bodies of
the getters, the constructor and the destructor are modelled from the
specification (each such definition carries a doc comment starting with
`Modelled from the spec:`).  The class declaration itself (member list and
access specifiers) is embedded directly from the header.
-/

/-- Decoded PNG metadata stored behind a libpng `png_infop` handle: the
scalar fields the eleven `png_get_...` query functions read. -/
structure PngInfoData where
  width : Nat
  height : Nat
  bit_depth : Nat
  color_type : Nat
  channels : Nat
  interlace_type : Nat
  rowbytes : Nat
  x_offset : Int
  y_offset : Int
  x_pixels_per_meter : Nat
  y_pixels_per_meter : Nat
deriving Repr, DecidableEq

/-- The external libpng environment, seen through the boundary the wrapper
uses: a handle pair `(png_structp, png_infop)` (modelled as numeric addresses,
`0` being the null pointer) either resolves to decoded metadata (`Except.ok`)
or is invalid, in which case the library signals an error code
(`Except.error`). -/
structure LibPng where
  infoOf : Nat → Nat → Except Nat PngInfoData

/-- A handle pair is valid when the library resolves it to decoded metadata:
this is the external library's own validity contract. -/
def LibPng.validPair (lib : LibPng) (p i : Nat) : Prop :=
  ∃ d, lib.infoOf p i = Except.ok d

/-- libpng query: bits per sample (`png_get_bit_depth`); returns 0 on an
invalid handle pair. -/
def LibPng.png_get_bit_depth (lib : LibPng) (p i : Nat) : Nat :=
  match lib.infoOf p i with
  | Except.ok d => d.bit_depth
  | Except.error _ => 0

/-- libpng query: samples per pixel (`png_get_channels`). -/
def LibPng.png_get_channels (lib : LibPng) (p i : Nat) : Nat :=
  match lib.infoOf p i with
  | Except.ok d => d.channels
  | Except.error _ => 0

/-- libpng query: pixel format classification (`png_get_color_type`). -/
def LibPng.png_get_color_type (lib : LibPng) (p i : Nat) : Nat :=
  match lib.infoOf p i with
  | Except.ok d => d.color_type
  | Except.error _ => 0

/-- libpng query: image height in pixels (`png_get_image_height`). -/
def LibPng.png_get_image_height (lib : LibPng) (p i : Nat) : Nat :=
  match lib.infoOf p i with
  | Except.ok d => d.height
  | Except.error _ => 0

/-- libpng query: image width in pixels (`png_get_image_width`). -/
def LibPng.png_get_image_width (lib : LibPng) (p i : Nat) : Nat :=
  match lib.infoOf p i with
  | Except.ok d => d.width
  | Except.error _ => 0

/-- libpng query: interlacing scheme (`png_get_interlace_type`). -/
def LibPng.png_get_interlace_type (lib : LibPng) (p i : Nat) : Nat :=
  match lib.infoOf p i with
  | Except.ok d => d.interlace_type
  | Except.error _ => 0

/-- libpng query: byte stride of one scanline (`png_get_rowbytes`). -/
def LibPng.png_get_rowbytes (lib : LibPng) (p i : Nat) : Nat :=
  match lib.infoOf p i with
  | Except.ok d => d.rowbytes
  | Except.error _ => 0

/-- libpng query: horizontal pixel offset (`png_get_x_offset_pixels`). -/
def LibPng.png_get_x_offset_pixels (lib : LibPng) (p i : Nat) : Int :=
  match lib.infoOf p i with
  | Except.ok d => d.x_offset
  | Except.error _ => 0

/-- libpng query: vertical pixel offset (`png_get_y_offset_pixels`). -/
def LibPng.png_get_y_offset_pixels (lib : LibPng) (p i : Nat) : Int :=
  match lib.infoOf p i with
  | Except.ok d => d.y_offset
  | Except.error _ => 0

/-- libpng query: horizontal physical density (`png_get_x_pixels_per_meter`);
0 when the image specifies no explicit density. -/
def LibPng.png_get_x_pixels_per_meter (lib : LibPng) (p i : Nat) : Nat :=
  match lib.infoOf p i with
  | Except.ok d => d.x_pixels_per_meter
  | Except.error _ => 0

/-- libpng query: vertical physical density (`png_get_y_pixels_per_meter`). -/
def LibPng.png_get_y_pixels_per_meter (lib : LibPng) (p i : Nat) : Nat :=
  match lib.infoOf p i with
  | Except.ok d => d.y_pixels_per_meter
  | Except.error _ => 0

/-- The `PngImage` view state declared in `png-image.hpp` lines 29-33: the two
owned libpng pointers. -/
structure PngImage where
  pngPtr : Nat
  infoPtr : Nat
deriving Repr, DecidableEq

/-- Modelled from the spec: the getter bodies live in the missing
implementation file; the header comment says the getters refer to the
`png_get_...` functions and the spec calls each accessor a pure delegation to
the library query applied to the two owned handles. -/
def PngImage.getBitDepth (lib : LibPng) (img : PngImage) : Nat :=
  lib.png_get_bit_depth img.pngPtr img.infoPtr

/-- Modelled from the spec: pure delegation of the `channels` accessor (the
getter body is in the missing implementation file). -/
def PngImage.getChannels (lib : LibPng) (img : PngImage) : Nat :=
  lib.png_get_channels img.pngPtr img.infoPtr

/-- Modelled from the spec: pure delegation of the `colorType` accessor. -/
def PngImage.getColorType (lib : LibPng) (img : PngImage) : Nat :=
  lib.png_get_color_type img.pngPtr img.infoPtr

/-- Modelled from the spec: pure delegation of the `height` accessor. -/
def PngImage.getHeight (lib : LibPng) (img : PngImage) : Nat :=
  lib.png_get_image_height img.pngPtr img.infoPtr

/-- Modelled from the spec: pure delegation of the `width` accessor. -/
def PngImage.getWidth (lib : LibPng) (img : PngImage) : Nat :=
  lib.png_get_image_width img.pngPtr img.infoPtr

/-- Modelled from the spec: pure delegation of the `interlaceType` accessor. -/
def PngImage.getInterlaceType (lib : LibPng) (img : PngImage) : Nat :=
  lib.png_get_interlace_type img.pngPtr img.infoPtr

/-- Modelled from the spec: pure delegation of the `rowBytes` accessor. -/
def PngImage.getRowBytes (lib : LibPng) (img : PngImage) : Nat :=
  lib.png_get_rowbytes img.pngPtr img.infoPtr

/-- Modelled from the spec: pure delegation of the `offsetX` accessor. -/
def PngImage.getOffsetX (lib : LibPng) (img : PngImage) : Int :=
  lib.png_get_x_offset_pixels img.pngPtr img.infoPtr

/-- Modelled from the spec: pure delegation of the `offsetY` accessor. -/
def PngImage.getOffsetY (lib : LibPng) (img : PngImage) : Int :=
  lib.png_get_y_offset_pixels img.pngPtr img.infoPtr

/-- Modelled from the spec: pure delegation of the `pixelsPerMeterX`
accessor. -/
def PngImage.getPixelsPerMeterX (lib : LibPng) (img : PngImage) : Nat :=
  lib.png_get_x_pixels_per_meter img.pngPtr img.infoPtr

/-- Modelled from the spec: pure delegation of the `pixelsPerMeterY`
accessor. -/
def PngImage.getPixelsPerMeterY (lib : LibPng) (img : PngImage) : Nat :=
  lib.png_get_y_pixels_per_meter img.pngPtr img.infoPtr

/-- Modelled from the spec: construction accepts the two handles, takes
ownership of both, and fails only when the external library itself rejects the
pair, in which case the library's error is propagated unmodified (the
constructor body is in the missing implementation file). -/
def PngImage.construct (lib : LibPng) (p i : Nat) : Except Nat PngImage :=
  match lib.infoOf p i with
  | Except.ok _ => Except.ok ⟨p, i⟩
  | Except.error e => Except.error e

/-- The eleven exposed read-only properties. -/
inductive Accessor
  | bitDepth | channels | colorType | height | width | interlaceType
  | rowBytes | offsetX | offsetY | pixelsPerMeterX | pixelsPerMeterY
deriving Repr, DecidableEq

/-- Uniform view of an accessor's result as a host-environment number. -/
def PngImage.readProp (lib : LibPng) (img : PngImage) : Accessor → Int
  | Accessor.bitDepth => PngImage.getBitDepth lib img
  | Accessor.channels => PngImage.getChannels lib img
  | Accessor.colorType => PngImage.getColorType lib img
  | Accessor.height => PngImage.getHeight lib img
  | Accessor.width => PngImage.getWidth lib img
  | Accessor.interlaceType => PngImage.getInterlaceType lib img
  | Accessor.rowBytes => PngImage.getRowBytes lib img
  | Accessor.offsetX => PngImage.getOffsetX lib img
  | Accessor.offsetY => PngImage.getOffsetY lib img
  | Accessor.pixelsPerMeterX => PngImage.getPixelsPerMeterX lib img
  | Accessor.pixelsPerMeterY => PngImage.getPixelsPerMeterY lib img

/-- Events in the lifetime of one `PngImage` instance. -/
inductive Event
  | construct (p i : Nat)
  | access (a : Accessor)
  | destroy
deriving Repr, DecidableEq

/-- Lifecycle state of one `PngImage` instance.  `destroyed` records the
handle pair released back to the library by the destructor. -/
inductive ViewState
  | preConstruction
  | constructed (img : PngImage)
  | destroyed (released : PngImage)
deriving Repr, DecidableEq

/-- Modelled from the spec: the lifecycle of one instance (constructor,
getter calls, destructor; the bodies are in the missing implementation file).
Construction succeeds only on a pair the library accepts; accessor calls leave
the state untouched; destruction hands both owned handles to the library's
cleanup entry point and is enabled only in the constructed state. -/
def step (lib : LibPng) : ViewState → Event → Option ViewState
  | ViewState.preConstruction, Event.construct p i =>
      match lib.infoOf p i with
      | Except.ok _ => some (ViewState.constructed ⟨p, i⟩)
      | Except.error _ => none
  | ViewState.constructed img, Event.access _ => some (ViewState.constructed img)
  | ViewState.constructed img, Event.destroy => some (ViewState.destroyed img)
  | _, _ => none

/-- Run a list of lifecycle events from a state; `none` when some event is
not enabled. -/
def run (lib : LibPng) : ViewState → List Event → Option ViewState
  | s, [] => some s
  | s, e :: es =>
      match step lib s e with
      | some s' => run lib s' es
      | none => none

/-- Execute one accessor call: read the property value from the current
state.  Only enabled while the view is constructed. -/
def execAccess (lib : LibPng) (s : ViewState) (a : Accessor) :
    Option (Int × ViewState) :=
  match s with
  | ViewState.constructed img => some (PngImage.readProp lib img a, ViewState.constructed img)
  | _ => none

/-- Execute a sequence of accessor calls, collecting the returned values. -/
def execAccesses (lib : LibPng) (s : ViewState) :
    List Accessor → Option (List Int × ViewState)
  | [] => some ([], s)
  | a :: as =>
      match execAccess lib s a with
      | some (v, s') =>
          match execAccesses lib s' as with
          | some (vs, s'') => some (v :: vs, s'')
          | none => none
      | none => none

/-- Modelled from the spec: the external library's contract for info handles
populated by a successful decode — `channels` is one of 1,2,3,4 and
`bit_depth` one of 1,2,4,8,16 (width and height are unsigned and hence
non-negative by type). -/
def PngInfoData.ValidDecoded (d : PngInfoData) : Prop :=
  d.channels ∈ [1, 2, 3, 4] ∧ d.bit_depth ∈ [1, 2, 4, 8, 16]

instance (d : PngInfoData) : Decidable d.ValidDecoded := by
  unfold PngInfoData.ValidDecoded
  infer_instance

/-- Modelled from the spec: the info data the external decode step produces
for an image with the given dimensions, sample format, offsets and optional
physical density — `rowbytes` follows the library's stride computation
(width × channels × bitDepth / 8, rounded up to whole bytes) and each density
field is 0 when the image specifies no explicit density. -/
def decodedInfo (width height bitDepth colorType channels interlace : Nat)
    (offX offY : Int) (density : Option (Nat × Nat)) : PngInfoData :=
  { width := width
    height := height
    bit_depth := bitDepth
    color_type := colorType
    channels := channels
    interlace_type := interlace
    rowbytes := (width * channels * bitDepth + 7) / 8
    x_offset := offX
    y_offset := offY
    x_pixels_per_meter := (density.map Prod.fst).getD 0
    y_pixels_per_meter := (density.map Prod.snd).getD 0 }

/-- Concrete decoded metadata: 8-bit, 3-channel (RGB), 100×50, non-interlaced,
no offsets, no explicit physical density. -/
def sampleInfo : PngInfoData :=
  decodedInfo 100 50 8 2 3 0 0 0 none

/-- A concrete library environment: the pair `(1, 2)` resolves to
`sampleInfo`, every other pair is invalid with error code 7. -/
def sampleLib : LibPng :=
  { infoOf := fun p i =>
      if p = 1 ∧ i = 2 then Except.ok sampleInfo else Except.error 7 }

/-- A concrete complete lifecycle: construct on the valid pair, one property
read, destruction. -/
def sampleTrace : List Event :=
  [Event.construct 1 2, Event.access Accessor.width, Event.destroy]

/- Embedding of the class declaration itself (`png-image.hpp` lines 8-34):
the member list with each member's access specifier and declared kind.  This
part is taken directly from the header, which is present in the sources. -/

/-- C++ access specifier of a class member. -/
inductive Access
  | publicAccess
  | privateAccess
deriving Repr, DecidableEq

/-- Declared kind of a class member in the header. -/
inductive MemberKind
  /-- `NAN_MODULE_INIT` static registration entry. -/
  | moduleInit
  /-- `NAN_METHOD` static method. -/
  | nanMethod
  /-- `NAN_GETTER` property getter. -/
  | nanGetter
  /-- `NAN_SETTER` property setter (none is declared; listed so that their
  absence is expressible). -/
  | nanSetter
  /-- C++ only constructor. -/
  | ctor
  /-- C++ only destructor. -/
  | dtor
  /-- Data member (a raw libpng pointer). -/
  | field
deriving Repr, DecidableEq

/-- One declared class member. -/
structure Member where
  name : String
  access : Access
  kind : MemberKind
deriving Repr, DecidableEq

/-- The member list of `class PngImage` exactly as declared in
`png-image.hpp`: `Init` is the sole public member; `New`, the eleven getters,
the constructor, the destructor and the two pointer fields are private. -/
def pngImageMembers : List Member :=
  [ ⟨"Init", Access.publicAccess, MemberKind.moduleInit⟩,
    ⟨"New", Access.privateAccess, MemberKind.nanMethod⟩,
    ⟨"getBitDepth", Access.privateAccess, MemberKind.nanGetter⟩,
    ⟨"getChannels", Access.privateAccess, MemberKind.nanGetter⟩,
    ⟨"getColorType", Access.privateAccess, MemberKind.nanGetter⟩,
    ⟨"getHeight", Access.privateAccess, MemberKind.nanGetter⟩,
    ⟨"getWidth", Access.privateAccess, MemberKind.nanGetter⟩,
    ⟨"getInterlaceType", Access.privateAccess, MemberKind.nanGetter⟩,
    ⟨"getRowBytes", Access.privateAccess, MemberKind.nanGetter⟩,
    ⟨"getOffsetX", Access.privateAccess, MemberKind.nanGetter⟩,
    ⟨"getOffsetY", Access.privateAccess, MemberKind.nanGetter⟩,
    ⟨"getPixelsPerMeterX", Access.privateAccess, MemberKind.nanGetter⟩,
    ⟨"getPixelsPerMeterY", Access.privateAccess, MemberKind.nanGetter⟩,
    ⟨"PngImage", Access.privateAccess, MemberKind.ctor⟩,
    ⟨"~PngImage", Access.privateAccess, MemberKind.dtor⟩,
    ⟨"pngPtr", Access.privateAccess, MemberKind.field⟩,
    ⟨"infoPtr", Access.privateAccess, MemberKind.field⟩ ]

/-! Helper lemmas about the lifecycle semantics. -/

/-- From the destroyed state no event is enabled: a successful run is empty. -/
theorem run_destroyed (lib : LibPng) (rel : PngImage) (evs : List Event)
    (s : ViewState) (h : run lib (ViewState.destroyed rel) evs = some s) :
    evs = [] ∧ s = ViewState.destroyed rel := by
  cases evs with
  | nil =>
      refine ⟨rfl, ?_⟩
      simp [run] at h
      exact h.symm
  | cons e es => cases e <;> simp [run, step] at h

/-- A successful run from a constructed view either stays constructed with the
same handles and performs no destruction, or ends destroyed having released
exactly that view's handle pair with exactly one destroy event. -/
theorem run_constructed (lib : LibPng) (img : PngImage) (evs : List Event)
    (s : ViewState) (h : run lib (ViewState.constructed img) evs = some s) :
    (s = ViewState.constructed img ∧ evs.count Event.destroy = 0) ∨
    (s = ViewState.destroyed img ∧ evs.count Event.destroy = 1) := by
  induction evs generalizing s with
  | nil =>
      left
      simp [run] at h
      exact ⟨h.symm, rfl⟩
  | cons e es ih =>
      cases e with
      | construct p i => simp [run, step] at h
      | access a =>
          simp only [run, step] at h
          rcases ih s h with ⟨h1, h2⟩ | ⟨h1, h2⟩
          · left; exact ⟨h1, by simp [List.count_cons, h2]⟩
          · right; exact ⟨h1, by simp [List.count_cons, h2]⟩
      | destroy =>
          simp only [run, step] at h
          obtain ⟨hes, hs⟩ := run_destroyed lib img es s h
          subst hes
          right
          exact ⟨hs, by simp [List.count_cons]⟩

/-- A successful run from the pre-construction state is either empty or opens
with a construct event the library accepted. -/
theorem run_pre (lib : LibPng) (evs : List Event) (s : ViewState)
    (h : run lib ViewState.preConstruction evs = some s) :
    (evs = [] ∧ s = ViewState.preConstruction) ∨
    ∃ p i es d, evs = Event.construct p i :: es ∧
      lib.infoOf p i = Except.ok d ∧
      run lib (ViewState.constructed ⟨p, i⟩) es = some s := by
  cases evs with
  | nil =>
      left
      simp [run] at h
      exact ⟨rfl, h.symm⟩
  | cons e es =>
      cases e with
      | construct p i =>
          right
          cases hd : lib.infoOf p i with
          | ok d =>
              refine ⟨p, i, es, d, rfl, hd, ?_⟩
              simpa [run, step, hd] using h
          | error ec =>
              exfalso
              simp [run, step, hd] at h
      | access a => simp [run, step] at h
      | destroy => simp [run, step] at h

/-- A sequence of accessor calls on a constructed view succeeds, returns the
pointwise property reads of the original view, and leaves the state as it
was. -/
theorem execAccesses_constructed (lib : LibPng) (img : PngImage)
    (as : List Accessor) :
    execAccesses lib (ViewState.constructed img) as =
      some (as.map (PngImage.readProp lib img), ViewState.constructed img) := by
  induction as with
  | nil => rfl
  | cons a as ih => simp [execAccesses, execAccess, ih]

/-! Claim theorems. -/

/-- C1: for every view over a valid handle pair, each of the eleven exposed
read-only properties equals the value of the external library's corresponding
query function applied to the two owned handles, with no additional
computation or branching by the view. -/
theorem accessors_delegate (lib : LibPng) (img : PngImage)
    (h : lib.validPair img.pngPtr img.infoPtr) :
    PngImage.getBitDepth lib img = lib.png_get_bit_depth img.pngPtr img.infoPtr ∧
    PngImage.getChannels lib img = lib.png_get_channels img.pngPtr img.infoPtr ∧
    PngImage.getColorType lib img = lib.png_get_color_type img.pngPtr img.infoPtr ∧
    PngImage.getHeight lib img = lib.png_get_image_height img.pngPtr img.infoPtr ∧
    PngImage.getWidth lib img = lib.png_get_image_width img.pngPtr img.infoPtr ∧
    PngImage.getInterlaceType lib img = lib.png_get_interlace_type img.pngPtr img.infoPtr ∧
    PngImage.getRowBytes lib img = lib.png_get_rowbytes img.pngPtr img.infoPtr ∧
    PngImage.getOffsetX lib img = lib.png_get_x_offset_pixels img.pngPtr img.infoPtr ∧
    PngImage.getOffsetY lib img = lib.png_get_y_offset_pixels img.pngPtr img.infoPtr ∧
    PngImage.getPixelsPerMeterX lib img = lib.png_get_x_pixels_per_meter img.pngPtr img.infoPtr ∧
    PngImage.getPixelsPerMeterY lib img = lib.png_get_y_pixels_per_meter img.pngPtr img.infoPtr :=
  ⟨rfl, rfl, rfl, rfl, rfl, rfl, rfl, rfl, rfl, rfl, rfl⟩

/-- Witness for C1 at the concrete sample environment and handle pair. -/
theorem accessors_delegate_witness :
    PngImage.getWidth sampleLib ⟨1, 2⟩ = sampleLib.png_get_image_width 1 2 :=
  (accessors_delegate sampleLib ⟨1, 2⟩ ⟨sampleInfo, rfl⟩).2.2.2.2.1

/-- C2: each accessor is idempotent across repeated invocations — calling the
same accessor any number of times on the same constructed view returns the
identical value each time (the run succeeds and every returned value is the
first one). -/
theorem accessor_idempotent (lib : LibPng) (img : PngImage)
    (h : lib.validPair img.pngPtr img.infoPtr) (a : Accessor) (n : Nat) :
    execAccesses lib (ViewState.constructed img) (List.replicate n a) =
      some (List.replicate n (PngImage.readProp lib img a),
        ViewState.constructed img) := by
  rw [execAccesses_constructed, List.map_replicate]

/-- Witness for C2: three repeated `width` reads on the sample view. -/
theorem accessor_idempotent_witness :
    execAccesses sampleLib (ViewState.constructed ⟨1, 2⟩)
        (List.replicate 3 Accessor.width) =
      some (List.replicate 3 (PngImage.readProp sampleLib ⟨1, 2⟩ Accessor.width),
        ViewState.constructed ⟨1, 2⟩) :=
  accessor_idempotent sampleLib ⟨1, 2⟩ ⟨sampleInfo, rfl⟩ Accessor.width 3

/-- C3: from completed construction until destruction both owned handles are
non-null and accepted as a pair by the external library, and no sequence of
view operations that keeps the view alive ever changes either handle — the
view holds exactly one logical state for its whole lifetime. -/
theorem handles_invariant (lib : LibPng)
    (hnull : ∀ p i, p = 0 ∨ i = 0 → ¬ lib.validPair p i)
    (evs : List Event) (img : PngImage)
    (h : run lib ViewState.preConstruction evs = some (ViewState.constructed img)) :
    lib.validPair img.pngPtr img.infoPtr ∧
    img.pngPtr ≠ 0 ∧ img.infoPtr ≠ 0 ∧
    ∀ evs' img', run lib (ViewState.constructed img) evs' =
        some (ViewState.constructed img') → img' = img := by
  rcases run_pre lib evs _ h with ⟨_, hs⟩ | ⟨p, i, es, d, _, hok, hrun⟩
  · exact absurd hs (by simp)
  · have himg : img = ⟨p, i⟩ := by
      rcases run_constructed lib ⟨p, i⟩ es _ hrun with ⟨h1, _⟩ | ⟨h1, _⟩
      · exact (ViewState.constructed.injEq _ _ ▸ h1).symm ▸ rfl
      · cases h1
    subst himg
    have hvp : lib.validPair p i := ⟨d, hok⟩
    refine ⟨hvp, ?_, ?_, ?_⟩
    · intro h0
      exact hnull p i (Or.inl h0) hvp
    · intro h0
      exact hnull p i (Or.inr h0) hvp
    · intro evs' img' h'
      rcases run_constructed lib ⟨p, i⟩ evs' _ h' with ⟨h1, _⟩ | ⟨h1, _⟩
      · injection h1 with h1
      · cases h1

/-- Witness for C3 at the concrete sample environment: after a successful
construction run the stream handle is non-null. -/
theorem handles_invariant_witness :
    PngImage.pngPtr ⟨1, 2⟩ ≠ 0 :=
  (handles_invariant sampleLib
    (fun p i hpi hvp => by
      rcases hvp with ⟨d, hd⟩
      rcases hpi with h0 | h0 <;> subst h0 <;> simp [sampleLib] at hd)
    [Event.construct 1 2] ⟨1, 2⟩ (by decide)).2.1

/-- C4: over any successful lifecycle run the destructor (which hands both
owned handles to the library's cleanup entry point) executes at most once;
when the run ends destroyed it executed exactly once and released exactly the
constructed handle pair; and it never executes in a run whose construction
did not complete. -/
theorem destroy_exactly_once (lib : LibPng) (evs : List Event) (s : ViewState)
    (h : run lib ViewState.preConstruction evs = some s) :
    evs.count Event.destroy ≤ 1 ∧
    (∀ rel, s = ViewState.destroyed rel →
      evs.count Event.destroy = 1 ∧
      ∃ p i es d, evs = Event.construct p i :: es ∧
        lib.infoOf p i = Except.ok d ∧ rel = ⟨p, i⟩) ∧
    (Event.destroy ∈ evs →
      ∃ p i es d, evs = Event.construct p i :: es ∧
        lib.infoOf p i = Except.ok d) := by
  rcases run_pre lib evs s h with ⟨hevs, hs⟩ | ⟨p, i, es, d, hevs, hok, hrun⟩
  · subst hevs
    subst hs
    refine ⟨by simp, ?_, by simp⟩
    intro rel hrel
    cases hrel
  · subst hevs
    rcases run_constructed lib ⟨p, i⟩ es s hrun with ⟨h1, h2⟩ | ⟨h1, h2⟩
    · subst h1
      refine ⟨by simp [List.count_cons, h2], ?_, ?_⟩
      · intro rel hrel
        cases hrel
      · intro _
        exact ⟨p, i, es, d, rfl, hok⟩
    · subst h1
      refine ⟨by simp [List.count_cons, h2], ?_, ?_⟩
      · intro rel hrel
        injection hrel with hrel
        exact ⟨by simp [List.count_cons, h2], p, i, es, d, rfl, hok, hrel.symm⟩
      · intro _
        exact ⟨p, i, es, d, rfl, hok⟩

/-- Witness for C4 on the concrete complete lifecycle trace. -/
theorem destroy_exactly_once_witness :
    sampleTrace.count Event.destroy ≤ 1 :=
  (destroy_exactly_once sampleLib sampleTrace
    (ViewState.destroyed ⟨1, 2⟩) (by decide)).1

/-- C5: for views built from a valid handle pair the accessor results lie in
the stated numeric domains — width and height are non-negative, channels is
one of 1,2,3,4 and bitDepth one of 1,2,4,8,16. -/
theorem accessor_domains (lib : LibPng) (img : PngImage) (d : PngInfoData)
    (hd : lib.infoOf img.pngPtr img.infoPtr = Except.ok d)
    (hv : d.ValidDecoded) :
    0 ≤ PngImage.getWidth lib img ∧ 0 ≤ PngImage.getHeight lib img ∧
    PngImage.getChannels lib img ∈ [1, 2, 3, 4] ∧
    PngImage.getBitDepth lib img ∈ [1, 2, 4, 8, 16] := by
  refine ⟨Nat.zero_le _, Nat.zero_le _, ?_, ?_⟩
  · unfold PngImage.getChannels LibPng.png_get_channels
    rw [hd]
    exact hv.1
  · unfold PngImage.getBitDepth LibPng.png_get_bit_depth
    rw [hd]
    exact hv.2

/-- Witness for C5 at the sample environment. -/
theorem accessor_domains_witness :
    PngImage.getChannels sampleLib ⟨1, 2⟩ ∈ [1, 2, 3, 4] :=
  (accessor_domains sampleLib ⟨1, 2⟩ sampleInfo rfl (by decide)).2.2.1

/-- C6: no accessor call mutates the view or its handles — any successful
sequence of accessor calls leaves the state exactly as constructed (so both
handles are unchanged), and every property read afterwards still returns the
value it had at construction. -/
theorem accessors_no_mutation (lib : LibPng) (img : PngImage)
    (h : lib.validPair img.pngPtr img.infoPtr) (as : List Accessor)
    (vs : List Int) (s' : ViewState)
    (hrun : execAccesses lib (ViewState.constructed img) as = some (vs, s')) :
    s' = ViewState.constructed img ∧
    ∀ a, execAccess lib s' a =
      some (PngImage.readProp lib img a, ViewState.constructed img) := by
  rw [execAccesses_constructed] at hrun
  cases hrun
  exact ⟨rfl, fun a => rfl⟩

/-- Witness for C6: after one `width` read on the sample view, a `bitDepth`
read still returns its construction-time value with the state unchanged. -/
theorem accessors_no_mutation_witness :
    execAccess sampleLib (ViewState.constructed ⟨1, 2⟩) Accessor.bitDepth =
      some (PngImage.readProp sampleLib ⟨1, 2⟩ Accessor.bitDepth,
        ViewState.constructed ⟨1, 2⟩) :=
  (accessors_no_mutation sampleLib ⟨1, 2⟩ ⟨sampleInfo, rfl⟩ [Accessor.width]
    ([Accessor.width].map (PngImage.readProp sampleLib ⟨1, 2⟩))
    (ViewState.constructed ⟨1, 2⟩)
    (execAccesses_constructed sampleLib ⟨1, 2⟩ [Accessor.width])).2
    Accessor.bitDepth

/-- C7: construction takes ownership of exactly the two supplied handles,
succeeds precisely when the external library accepts the pair (no validation
of the view's own), and propagates any error the library signals unmodified
rather than reinterpreting it. -/
theorem construct_contract (lib : LibPng) (p i : Nat) :
    ((∃ img, PngImage.construct lib p i = Except.ok img) ↔ lib.validPair p i) ∧
    (∀ d, lib.infoOf p i = Except.ok d →
      PngImage.construct lib p i = Except.ok ⟨p, i⟩) ∧
    (∀ e, PngImage.construct lib p i = Except.error e ↔
      lib.infoOf p i = Except.error e) := by
  unfold PngImage.construct LibPng.validPair
  cases hd : lib.infoOf p i with
  | ok d => refine ⟨?_, ?_, ?_⟩ <;> simp
  | error ec => refine ⟨?_, ?_, ?_⟩ <;> simp

/-- Witness for C7: construction on the sample environment's valid pair
yields the view owning exactly that pair. -/
theorem construct_contract_witness :
    PngImage.construct sampleLib 1 2 = Except.ok ⟨1, 2⟩ :=
  (construct_contract sampleLib 1 2).2.1 sampleInfo rfl

/-- C8: for a view over handles decoded from an 8-bit, 3-channel, width-100
image the `rowBytes` accessor returns 300, which is
width × channels × bitDepth/8, the library's stride computation. -/
theorem rowBytes_stride (lib : LibPng) (img : PngImage)
    (height colorType interlace : Nat) (offX offY : Int)
    (density : Option (Nat × Nat))
    (h : lib.infoOf img.pngPtr img.infoPtr =
      Except.ok (decodedInfo 100 height 8 colorType 3 interlace offX offY density)) :
    PngImage.getRowBytes lib img = 300 ∧ 300 = 100 * 3 * (8 / 8) := by
  refine ⟨?_, by norm_num⟩
  unfold PngImage.getRowBytes LibPng.png_get_rowbytes
  rw [h]
  rfl

/-- Witness for C8 at the sample environment (100×50 RGB 8-bit image). -/
theorem rowBytes_stride_witness :
    PngImage.getRowBytes sampleLib ⟨1, 2⟩ = 300 :=
  (rowBytes_stride sampleLib ⟨1, 2⟩ 50 2 0 0 0 none rfl).1

/-- C9: a view over handles decoded from an image with no explicit physical
density reports 0 for both pixels-per-meter accessors; in the 8-bit,
3-channel, 100×50 non-interlaced scenario the accessors return width 100,
height 50, channels 3, bitDepth 8 and interlaceType 0. -/
theorem density_defaults (lib : LibPng) (img : PngImage)
    (width height bitDepth colorType channels interlace : Nat) (offX offY : Int)
    (h : lib.infoOf img.pngPtr img.infoPtr =
      Except.ok (decodedInfo width height bitDepth colorType channels interlace
        offX offY none)) :
    PngImage.getPixelsPerMeterX lib img = 0 ∧
    PngImage.getPixelsPerMeterY lib img = 0 ∧
    (width = 100 → height = 50 → bitDepth = 8 → channels = 3 → interlace = 0 →
      PngImage.getWidth lib img = 100 ∧ PngImage.getHeight lib img = 50 ∧
      PngImage.getChannels lib img = 3 ∧ PngImage.getBitDepth lib img = 8 ∧
      PngImage.getInterlaceType lib img = 0) := by
  refine ⟨?_, ?_, ?_⟩
  · simp [PngImage.getPixelsPerMeterX, LibPng.png_get_x_pixels_per_meter, h,
      decodedInfo]
  · simp [PngImage.getPixelsPerMeterY, LibPng.png_get_y_pixels_per_meter, h,
      decodedInfo]
  · intro hw hh hb hc hi
    subst hw; subst hh; subst hb; subst hc; subst hi
    refine ⟨?_, ?_, ?_, ?_, ?_⟩
    · simp [PngImage.getWidth, LibPng.png_get_image_width, h, decodedInfo]
    · simp [PngImage.getHeight, LibPng.png_get_image_height, h, decodedInfo]
    · simp [PngImage.getChannels, LibPng.png_get_channels, h, decodedInfo]
    · simp [PngImage.getBitDepth, LibPng.png_get_bit_depth, h, decodedInfo]
    · simp [PngImage.getInterlaceType, LibPng.png_get_interlace_type, h,
        decodedInfo]

/-- Witness for C9 at the sample environment (no explicit density). -/
theorem density_defaults_witness :
    PngImage.getPixelsPerMeterX sampleLib ⟨1, 2⟩ = 0 :=
  (density_defaults sampleLib ⟨1, 2⟩ 100 50 8 2 3 0 0 0 rfl).1

/-- C10: the declared interface exposes no setter and no close/dispose
operation; the constructor, destructor, the `New` method and both pointer
fields are private, `Init` is the sole public member, so the raw handles are
never reachable from outside the class and release can occur only through
the destructor. -/
theorem interface_sealed :
    (∀ m ∈ pngImageMembers, m.kind ≠ MemberKind.nanSetter) ∧
    (∀ m ∈ pngImageMembers, m.name ≠ "close" ∧ m.name ≠ "dispose") ∧
    pngImageMembers.filter (fun m => decide (m.access = Access.publicAccess)) =
      [⟨"Init", Access.publicAccess, MemberKind.moduleInit⟩] ∧
    (∀ m ∈ pngImageMembers,
      (m.kind = MemberKind.ctor ∨ m.kind = MemberKind.dtor ∨
       m.kind = MemberKind.field ∨ m.kind = MemberKind.nanMethod) →
      m.access = Access.privateAccess) ∧
    (⟨"New", Access.privateAccess, MemberKind.nanMethod⟩ : Member) ∈
      pngImageMembers ∧
    (⟨"Init", Access.publicAccess, MemberKind.moduleInit⟩ : Member) ∈
      pngImageMembers ∧
    (⟨"~PngImage", Access.privateAccess, MemberKind.dtor⟩ : Member) ∈
      pngImageMembers := by
  decide
